import Mathlib

/-!
Verification development for the WhatsAMyth backend
(server/whatsamyth-backend).  The Python sources are shallowly embedded:
Python str becomes List Char, floats become ℚ (exact arithmetic),
datetimes become ℚ seconds, SQLAlchemy rows become structures, and the
external ML embedder is an oracle parameter.  The ASCII fragment of
Python's str.lower / str.strip / regex \w, \s is modelled; all inputs
exercised by the theorems below stay inside that fragment.
-/

set_option maxHeartbeats 1000000
set_option maxRecDepth 4000

namespace WhatsAMyth

/-- The closed status set of app/models.py ClaimStatus. -/
inductive ClaimStatus where
  | UNKNOWN
  | TRUE
  | FALSE
  | MISLEADING
  | PARTIALLY_TRUE
  | UNVERIFIABLE
deriving DecidableEq, Repr

/-- Coverage labels returned by llm_client._assess_evidence_coverage. -/
inductive Coverage where
  | NONE
  | LOW
  | MEDIUM
  | HIGH
deriving DecidableEq, Repr

/-! ### Character helpers (ASCII fragment of Python's str methods) -/

/-- Python whitespace for str.strip and regex \s (ASCII fragment):
space, tab, newline, carriage return, vertical tab, form feed. -/
def isPySpace (c : Char) : Bool :=
  c.toNat = 32 || c.toNat = 9 || c.toNat = 10 || c.toNat = 13 ||
  c.toNat = 11 || c.toNat = 12

/-- Regex \w word character (ASCII fragment of Python's unicode \w). -/
def isWordChar (c : Char) : Bool :=
  (97 ≤ c.toNat && c.toNat ≤ 122) || (65 ≤ c.toNat && c.toNat ≤ 90) ||
  (48 ≤ c.toNat && c.toNat ≤ 57) || c.toNat = 95

/-- ASCII digit, regex \d (ASCII fragment). -/
def isDigitChar (c : Char) : Bool := 48 ≤ c.toNat && c.toNat ≤ 57

/-- ASCII uppercase letter, the class [A-Z]. -/
def isUpperAZ (c : Char) : Bool := 65 ≤ c.toNat && c.toNat ≤ 90

/-- ASCII lowercase letter, the class [a-z]. -/
def isLowerAZ (c : Char) : Bool := 97 ≤ c.toNat && c.toNat ≤ 122

/-- ASCII letter, the class [a-zA-Z]. -/
def isAsciiAlpha (c : Char) : Bool := isUpperAZ c || isLowerAZ c

/-- Python str.lower on one character (ASCII fragment). -/
def pyLowerChar (c : Char) : Char :=
  if isUpperAZ c then Char.ofNat (c.toNat + 32) else c

/-- Python str.upper on one character (ASCII fragment). -/
def pyUpperChar (c : Char) : Char :=
  if isLowerAZ c then Char.ofNat (c.toNat - 32) else c

/-- Python str.strip(): drop leading and trailing whitespace. -/
def pyStrip (s : List Char) : List Char :=
  (((s.dropWhile isPySpace).reverse.dropWhile isPySpace)).reverse

/-- Accumulator pass of pySplit: collect the current (reversed) run of
non-whitespace characters, flushing it at each whitespace. -/
def pySplitAux (acc : List Char) : List Char → List (List Char)
  | [] => if acc.isEmpty then [] else [acc.reverse]
  | c :: rest =>
    if isPySpace c then
      if acc.isEmpty then pySplitAux [] rest
      else acc.reverse :: pySplitAux [] rest
    else pySplitAux (c :: acc) rest

/-- Python str.split(): split on whitespace runs, dropping empty pieces. -/
def pySplit (s : List Char) : List (List Char) := pySplitAux [] s

/-- Accumulator pass of wordRuns: collect the current (reversed) run of
word characters, flushing it at each non-word character. -/
def wordRunsAux (acc : List Char) : List Char → List (List Char)
  | [] => if acc.isEmpty then [] else [acc.reverse]
  | c :: rest =>
    if isWordChar c then wordRunsAux (c :: acc) rest
    else if acc.isEmpty then wordRunsAux [] rest
    else acc.reverse :: wordRunsAux [] rest

/-- Maximal runs of word characters: Python re.findall of word tokens. -/
def wordRuns (s : List Char) : List (List Char) := wordRunsAux [] s

/-! ### Generic facts about dropWhile / pyStrip -/

theorem dropWhile_dropWhile (p : Char → Bool) (l : List Char) :
    (l.dropWhile p).dropWhile p = l.dropWhile p := by
  induction l with
  | nil => simp
  | cons c rest ih =>
    by_cases h : p c
    · simpa [List.dropWhile_cons, h] using ih
    · simp [List.dropWhile_cons, h]

theorem dropWhile_eq_self_of_head (p : Char → Bool) (l : List Char)
    (h : ∀ c, l.head? = some c → p c = false) : l.dropWhile p = l := by
  cases l with
  | nil => simp
  | cons c rest => simp [List.dropWhile_cons, h c rfl]

theorem head_of_dropWhile (p : Char → Bool) (l : List Char) (c : Char)
    (h : (l.dropWhile p).head? = some c) : p c = false := by
  induction l with
  | nil => simp at h
  | cons d rest ih =>
    by_cases hd : p d
    · exact ih (by simpa [List.dropWhile_cons, hd] using h)
    · simp [List.dropWhile_cons, hd] at h
      subst h
      simpa using hd

/-- Stripping is idempotent, like Python's str.strip. -/
theorem pyStrip_idem (s : List Char) : pyStrip (pyStrip s) = pyStrip s := by
  unfold pyStrip
  set s1 := s.dropWhile isPySpace with hs1
  set s2 := (s1.reverse.dropWhile isPySpace).reverse with hs2
  have hrev : s2.reverse = s1.reverse.dropWhile isPySpace := by
    rw [hs2, List.reverse_reverse]
  have h1 : s2.dropWhile isPySpace = s2 := by
    apply dropWhile_eq_self_of_head
    intro c hc
    obtain ⟨t, ht⟩ := List.dropWhile_suffix (l := s1.reverse) isPySpace
    -- s1 is the trailing-trim s2 followed by the trimmed tail, so they share heads
    have hs12 : s1 = s2 ++ t.reverse := by
      have h' := congrArg List.reverse ht
      rw [List.reverse_append, List.reverse_reverse] at h'
      rw [hs2]; exact h'.symm
    have hhd : s1.head? = some c := by
      cases hs2' : s2 with
      | nil => rw [hs2'] at hc; simp at hc
      | cons a l =>
        rw [hs2'] at hc hs12
        simp only [List.head?_cons, Option.some.injEq] at hc
        rw [hs12]; simp [hc]
    -- s1 = dropWhile isPySpace s, so its head cannot be a space
    exact head_of_dropWhile isPySpace s c (by rw [hs1] at hhd; exact hhd)
  have h2 : s2.reverse.dropWhile isPySpace = s2.reverse := by
    rw [hrev]; exact dropWhile_dropWhile _ _
  rw [h1, h2, List.reverse_reverse]

/-! ### Sorting by a rational key, descending

Models SQL ORDER BY ... DESC (crud.py queries) and FAISS exact top-k
inner-product search (both return rows/vectors in descending key order;
the order among equal keys is unspecified in SQL/FAISS and is fixed here
by a deterministic insertion sort). -/

/-- Insert a into l keeping descending f-order. -/
def insertD {α : Type} (f : α → ℚ) (a : α) : List α → List α
  | [] => [a]
  | b :: bs => if f b ≤ f a then a :: b :: bs else b :: insertD f a bs

/-- Sort l by f, largest key first. -/
def sortD {α : Type} (f : α → ℚ) : List α → List α
  | [] => []
  | a :: as => insertD f a (sortD f as)

theorem insertD_perm {α : Type} (f : α → ℚ) (a : α) (l : List α) :
    List.Perm (insertD f a l) (a :: l) := by
  induction l with
  | nil => rfl
  | cons b bs ih =>
    by_cases h : f b ≤ f a
    · simp [insertD, h]
    · simp only [insertD, if_neg h]
      exact (ih.cons b).trans (List.Perm.swap a b bs)

theorem sortD_perm {α : Type} (f : α → ℚ) (l : List α) :
    List.Perm (sortD f l) l := by
  induction l with
  | nil => rfl
  | cons a as ih => exact (insertD_perm f a (sortD f as)).trans (ih.cons a)

theorem mem_sortD {α : Type} (f : α → ℚ) (l : List α) (x : α) :
    x ∈ sortD f l ↔ x ∈ l := (sortD_perm f l).mem_iff

theorem insertD_sorted {α : Type} (f : α → ℚ) (a : α) (l : List α)
    (h : l.Pairwise (fun x y => f y ≤ f x)) :
    (insertD f a l).Pairwise (fun x y => f y ≤ f x) := by
  induction l with
  | nil => simp [insertD]
  | cons b bs ih =>
    by_cases hba : f b ≤ f a
    · simp only [insertD, if_pos hba]
      refine List.Pairwise.cons ?_ h
      intro x hx
      rcases List.mem_cons.mp hx with rfl | hx
      · exact hba
      · exact le_trans ((List.pairwise_cons.mp h).1 x hx) hba
    · simp only [insertD, if_neg hba]
      have hb := (List.pairwise_cons.mp h).1
      refine List.Pairwise.cons ?_ (ih (List.pairwise_cons.mp h).2)
      intro x hx
      have hx' := (insertD_perm f a bs).mem_iff.mp hx
      rcases List.mem_cons.mp hx' with rfl | hx''
      · exact le_of_lt (lt_of_not_le hba)
      · exact hb x hx''

theorem sortD_sorted {α : Type} (f : α → ℚ) (l : List α) :
    (sortD f l).Pairwise (fun x y => f y ≤ f x) := by
  induction l with
  | nil => simp [sortD]
  | cons a as ih => exact insertD_sorted f a (sortD f as) ih

/-- Everything kept by take n dominates everything in drop n of a
descending-sorted list. -/
theorem sortD_take_drop {α : Type} (f : α → ℚ) (l : List α) (n : Nat)
    (x y : α) (hx : x ∈ (sortD f l).take n) (hy : y ∈ (sortD f l).drop n) :
    f y ≤ f x := by
  have h := sortD_sorted f l
  rw [← List.take_append_drop n (sortD f l)] at h
  exact ((List.pairwise_append.mp h).2.2) x hx y hy

/-! ### Vector arithmetic (numpy arrays as rational lists) -/

/-- Componentwise vector addition (numpy +). -/
def vadd (u v : List ℚ) : List ℚ := List.zipWith (· + ·) u v

/-- Scalar multiple (numpy scalar *). -/
def vscale (a : ℚ) (v : List ℚ) : List ℚ := v.map (a * ·)

/-- Inner product (FAISS IndexFlatIP metric). -/
def ip (u v : List ℚ) : ℚ := (List.zipWith (· * ·) u v).sum

theorem vadd_length (u v : List ℚ) :
    (vadd u v).length = min u.length v.length := by
  simp [vadd]

theorem vscale_length (a : ℚ) (v : List ℚ) :
    (vscale a v).length = v.length := by
  simp [vscale]

theorem vscale_vscale (a b : ℚ) (v : List ℚ) :
    vscale a (vscale b v) = vscale (a * b) v := by
  simp [vscale, Function.comp, mul_assoc]

theorem vscale_one (v : List ℚ) : vscale 1 v = v := by
  simp [vscale]

theorem vscale_vadd (a : ℚ) (u v : List ℚ) :
    vscale a (vadd u v) = vadd (vscale a u) (vscale a v) := by
  induction u generalizing v with
  | nil => simp [vadd, vscale]
  | cons x xs ih =>
    cases v with
    | nil => simp [vadd, vscale]
    | cons y ys =>
      have h := ih ys
      simp only [vadd, vscale] at h ⊢
      simp [List.zipWith_cons_cons, mul_add, h]

/-! ### A small regular-expression engine

app/services/detection.py drives Python's re module over fixed pattern
tables.  The fragment those patterns use (literals, classes, alternation,
option/plus/star, word boundaries, the anchors of a non-MULTILINE
pattern) is embedded as an AST with a fuel-bounded backtracking matcher;
only match existence is needed, which the exploration below computes. -/

/-- Regex AST for the fragment used by the detection patterns. -/
inductive RE where
  | eps
  | cls (p : Char → Bool)
  | seq (a b : RE)
  | alt (a b : RE)
  | star (a : RE)
  | bnd
  | bos
  | eos

/-- Literal character. -/
def RE.chr (c : Char) : RE := RE.cls (fun d => d = c)

/-- Literal string. -/
def RE.lit (s : List Char) : RE := (s.map RE.chr).foldr RE.seq RE.eps

/-- Literal string, from a String. -/
def RE.litS (s : String) : RE := RE.lit s.toList

/-- One or more. -/
def RE.plus (a : RE) : RE := RE.seq a (RE.star a)

/-- Zero or one. -/
def RE.opt (a : RE) : RE := RE.alt a RE.eps

/-- Sequence of a list of regexes. -/
def RE.cat (l : List RE) : RE := l.foldr RE.seq RE.eps

/-- Alternation over a list of regexes. -/
def RE.anyOf : List RE → RE
  | [] => RE.cls (fun _ => false)
  | [a] => a
  | a :: rest => RE.alt a (RE.anyOf rest)

/-- Alternation of literal words, for the common (w1|w2|...) groups. -/
def RE.words (ws : List String) : RE := RE.anyOf (ws.map RE.litS)

/-- Structural size, used only to choose a sufficient fuel. -/
def RE.size : RE → Nat
  | .eps | .cls _ | .bnd | .bos | .eos => 1
  | .seq a b | .alt a b => a.size + b.size + 1
  | .star a => a.size + 1

/-- Is the character to one side of a position a word character
(none = beyond the ends of the string)? -/
def isWordB : Option Char → Bool
  | none => false
  | some c => isWordChar c

/-- All states (last consumed char, remaining input) reachable by
matching re at the current position.  Each star iteration must consume
input, so the supplied fuel (linear in input length times pattern size)
cannot run out. -/
def reMatch : Nat → RE → Option Char → List Char → List (Option Char × List Char)
  | 0, _, _, _ => []
  | fuel + 1, re, prev, s =>
    match re with
    | .eps => [(prev, s)]
    | .cls p =>
      match s with
      | [] => []
      | c :: rest => if p c then [(some c, rest)] else []
    | .seq a b =>
      (reMatch fuel a prev s).flatMap (fun st => reMatch fuel b st.1 st.2)
    | .alt a b => reMatch fuel a prev s ++ reMatch fuel b prev s
    | .star a =>
      (prev, s) :: (reMatch fuel a prev s).flatMap (fun st =>
        if st.2.length < s.length then reMatch fuel (.star a) st.1 st.2 else [])
    | .bnd => if isWordB prev != isWordB s.head? then [(prev, s)] else []
    | .bos => if prev.isNone then [(prev, s)] else []
    | .eos =>
      match s with
      | [] => [(prev, s)]
      | [c] => if c = '\n' then [(prev, s)] else []
      | _ => []

/-- Fuel that the recursion of reMatch cannot exhaust. -/
def reFuel (re : RE) (s : List Char) : Nat :=
  (re.size + 1) * (s.length + 1) + re.size + 1

/-- Does re match starting exactly at the current position? -/
def reMatchHere (re : RE) (prev : Option Char) (s : List Char) : Bool :=
  !(reMatch (reFuel re s) re prev s).isEmpty

/-- Python re.search existence: try every start position left to right. -/
def reSearchFrom (re : RE) : Option Char → List Char → Bool
  | prev, [] => reMatchHere re prev []
  | prev, c :: rest =>
    reMatchHere re prev (c :: rest) || reSearchFrom re (some c) rest

/-- re.search(pattern, s) is not None. -/
def reSearch (re : RE) (s : List Char) : Bool := reSearchFrom re none s

/-! ### Pattern tables of app/services/detection.py

Each definition transcribes one regex from the source; literals are kept
lowercase because every call site matches with re.IGNORECASE against
text the code has already lowercased (the one case-sensitive pattern,
the proper-noun check, is modelled separately). -/

/-- Character classes used by the patterns. -/
def reWS : RE := RE.cls isPySpace

def reWSp : RE := RE.plus reWS

def reWSs : RE := RE.star reWS

def reWp : RE := RE.plus (RE.cls isWordChar)

def reD : RE := RE.cls isDigitChar

def reDp : RE := RE.plus reD

def reDot : RE := RE.cls (fun c => c ≠ '\n')

/-- A word with an optional trailing s, the idiom of the source's
causes? / prevents? / shows? groups. -/
def sOpt (w : String) : RE := RE.seq (RE.litS w) (RE.opt (RE.chr 's'))

/-- An alternation of phrases framed by word boundaries. -/
def bAlt (ws : List String) : RE := RE.cat [RE.bnd, RE.words ws, RE.bnd]

/-- The first high-priority pattern: death phrases. -/
def HP1 : RE :=
  bAlt ["is dead", "has died", "was found dead", "has been found dead",
        "passed away", "died in", "died at", "was killed in", "killed in"]

/-- The second high-priority pattern. -/
def HP2 : RE := bAlt ["declared dead", "pronounced dead"]

/-- HIGH_PRIORITY_PATTERNS of detection.py. -/
def HIGH_PRIORITY_PATTERNS : List RE := [HP1, HP2]

/-- Non-claim pattern: anchored interrogative sentence. -/
def NC1 : RE := RE.cat [RE.bos, reWSs,
  RE.words ["what", "who", "where", "when", "why", "how", "is", "are",
            "do", "does", "did", "can", "could", "would", "should"],
  reWSp, RE.plus reDot, RE.chr '?', reWSs, RE.eos]

/-- Non-claim pattern: opinion markers. -/
def NC2 : RE := bAlt ["i think", "i believe", "in my opinion", "personally",
                      "i feel", "seems to me"]

/-- Non-claim pattern: uncertainty markers. -/
def NC3 : RE := bAlt ["maybe", "perhaps", "might", "could be", "possibly",
                      "i wonder"]

/-- Non-claim pattern: greetings. -/
def NC4 : RE := RE.cat [RE.bos, reWSs,
  RE.words ["hi", "hello", "hey", "good morning", "good evening",
            "thanks", "thank you"], RE.bnd]

/-- Non-claim pattern: casual chat openers, including emoji. -/
def NC5 : RE := RE.cat [RE.bos, reWSs,
  RE.anyOf [RE.litS "lol", RE.litS "haha", RE.litS "hehe",
            RE.chr (Char.ofNat 0x1F602), RE.chr (Char.ofNat 0x1F923),
            RE.chr (Char.ofNat 0x1F606)], RE.bnd]

/-- NON_CLAIM_PATTERNS of detection.py. -/
def NON_CLAIM_PATTERNS : List RE := [NC1, NC2, NC3, NC4, NC5]

def CP01 : RE := RE.cat [RE.bnd,
  RE.words ["is", "are", "was", "were", "will be", "has been", "have been"],
  reWSp, RE.words ["proven", "confirmed", "discovered", "revealed", "shown"],
  RE.bnd]

def CP02 : RE := RE.cat [RE.bnd,
  RE.anyOf [sOpt "cause", sOpt "prevent", sOpt "cure", sOpt "kill",
            sOpt "protect"], reWSp, reWp]

def CP03 : RE := bAlt ["always", "never", "100%", "guaranteed",
                       "definitely", "certainly"]

def CP04 : RE := bAlt ["urgent", "breaking", "alert", "warning", "danger",
                       "shocking", "incredible"]

def CP05 : RE := bAlt ["share this", "forward", "must read",
                       "everyone should know"]

def CP06 : RE := RE.cat [RE.bnd,
  RE.anyOf [RE.litS "cyclone", RE.litS "hurricane", RE.litS "typhoon",
            RE.litS "storm", RE.litS "earthquake", RE.litS "tsunami",
            RE.seq (RE.litS "flood") (RE.opt (RE.chr 's')),
            RE.cat [RE.litS "landslid", RE.opt (RE.chr 'e'),
                    RE.opt (RE.chr 's')]], RE.bnd]

def CP07 : RE := RE.cat [RE.bnd, RE.words ["red", "orange", "yellow"],
  reWSp, RE.litS "alert", RE.opt (RE.chr 's'), RE.bnd]

def CP08 : RE := RE.cat [RE.bnd,
  RE.alt (RE.cat [RE.litS "alert", RE.opt (RE.chr 's'), reWSp,
                  RE.litS "issued"])
         (RE.cat [RE.litS "warning", RE.opt (RE.chr 's'), reWSp,
                  RE.litS "issued"]), RE.bnd]

def CP09 : RE := bAlt ["evacuate", "evacuation", "take shelter",
                       "seek shelter", "emergency"]

def CP10 : RE := RE.cat [RE.bnd,
  RE.anyOf [RE.litS "death toll", RE.litS "casualties", RE.litS "injured",
            RE.seq (RE.litS "missing person") (RE.opt (RE.chr 's'))],
  RE.bnd]

def CP11 : RE := RE.cat [RE.bnd,
  RE.words ["magnitude", "intensity", "category", "level"], reWSp, reDp,
  RE.bnd]

def CP12 : RE := RE.cat [RE.bnd, RE.litS "earth", reWSp, RE.litS "is",
  reWSp, RE.litS "flat", RE.bnd]

def CP13 : RE := bAlt ["scam"]

def CP14 : RE := bAlt ["hoax"]

def CP15 : RE := bAlt ["conspiracy"]

def CP16 : RE := bAlt ["vaccine", "vaccination", "covid", "corona",
                       "virus", "treatment", "cure", "medicine", "drug"]

def CP17 : RE := bAlt ["cancer", "disease", "illness", "symptoms",
                       "side effects"]

def CP18 : RE := RE.cat [RE.bnd,
  RE.anyOf [RE.litS "government", RE.litS "they", RE.litS "officials",
            RE.seq (RE.litS "elite") (RE.opt (RE.chr 's')),
            RE.seq (RE.litS "billionaire") (RE.opt (RE.chr 's'))],
  reWSp,
  RE.anyOf [RE.litS "is", RE.litS "are",
            RE.seq (RE.litS "want") (RE.opt (RE.chr 's')),
            RE.cat [RE.litS "hid",
                    RE.opt (RE.alt (RE.chr 'e') (RE.litS "ing"))],
            RE.litS "cover"]]

def CP19 : RE := bAlt ["secret", "hidden", "suppressed", "censored",
                       "banned"]

/-- The apostrophe character, kept out of string literals. -/
def apos : Char := Char.ofNat 39

/-- The phrase (with apostrophe) of the 20th claim pattern. -/
def dontWantChars : List Char :=
  ("don".toList) ++ [apos] ++ ("t want you to know".toList)

def CP20 : RE := RE.cat [RE.bnd,
  RE.anyOf [RE.lit dontWantChars, RE.litS "wake up", RE.litS "truth",
            RE.litS "exposed", RE.litS "leaked"], RE.bnd]

def CP21 : RE := RE.cat [RE.bnd, reDp, reWSs,
  RE.anyOf [RE.chr '%', RE.litS "percent", RE.litS "times", RE.chr 'x'],
  reWSs, RE.words ["more", "less", "higher", "lower", "better", "worse"],
  RE.bnd]

def CP22 : RE := RE.cat [RE.bnd,
  RE.words ["study", "research", "survey", "poll"], reWSp,
  RE.anyOf [sOpt "show", sOpt "find", sOpt "reveal", sOpt "prove"],
  RE.bnd]

def CP23 : RE := RE.cat [RE.bnd,
  RE.anyOf [sOpt "scientist", sOpt "doctor", sOpt "expert",
            sOpt "researcher", sOpt "professor"], reWSp,
  RE.words ["say", "claim", "confirm", "discover"], RE.bnd]

def CP24 : RE := RE.cat [RE.bnd,
  RE.anyOf [RE.litS "according to", RE.litS "based on",
            RE.cat [RE.litS "source", RE.opt (RE.chr 's'), RE.litS " say"],
            RE.cat [RE.litS "report", RE.opt (RE.chr 's'),
                    RE.litS " indicate"]], RE.bnd]

/-- CLAIM_PATTERNS of detection.py, in source order; the urgency pair
appears twice there and therefore counts twice. -/
def CLAIM_PATTERNS : List RE :=
  [CP01, CP02, CP03, CP04, CP05, CP06, CP07, CP08, CP09, CP10, CP11,
   CP12, CP13, CP14, CP15, CP16, CP17, CP18, CP19, CP20, CP21, CP22,
   CP23, CP24, CP04, CP05]

/-! ### detection.py: claim classification and language detection -/

def MIN_CLAIM_LENGTH : Nat := 10

def MAX_CLAIM_LENGTH : Nat := 5000

/-- Python str.lower (ASCII fragment). -/
def pyLower (s : List Char) : List Char := s.map pyLowerChar

/-- detection._matches_any. -/
def matchesAny (ps : List RE) (t : List Char) : Bool :=
  ps.any (fun p => reSearch p t)

/-- Number of claim patterns that match (the matches counter loop). -/
def countMatches (ps : List RE) (t : List Char) : Nat :=
  (ps.filter (fun p => reSearch p t)).length

/-- detection._is_high_priority_claim (its local t inlined). -/
def isHighPriorityClaim (text : List Char) : Bool :=
  if text = [] then false
  else if (pyLower (pyStrip text)).length < MIN_CLAIM_LENGTH then false
  else matchesAny HIGH_PRIORITY_PATTERNS (pyLower (pyStrip text))

/-- detection._rule_based_claim_score (text_lower inlined). -/
def ruleBasedClaimScore (text : List Char) : ℚ :=
  if (pyStrip (pyLower text)).length < MIN_CLAIM_LENGTH then 0
  else if (pyStrip (pyLower text)).length > MAX_CLAIM_LENGTH then 0
  else if matchesAny NON_CLAIM_PATTERNS (pyStrip (pyLower text)) then 0
  else min ((countMatches CLAIM_PATTERNS (pyStrip (pyLower text)) : ℚ) / 3) 1

/-- The clipping applied by detection._semantic_claim_score to the
encoder's best cosine (the encoder itself is the oracle rawSim; an
unavailable model is an oracle returning a negative value). -/
def semClip (raw : ℚ) : ℚ := if raw < 3 / 10 then 0 else min raw 1

/-- detection._semantic_claim_score over the embedding oracle. -/
def semanticScore (rawSim : List Char → ℚ) (t : List Char) : ℚ :=
  semClip (rawSim t)

/-- The auxiliary-verb regex of _looks_like_generic_fact. -/
def AUX_VERB : RE := bAlt ["is", "are", "was", "were", "has", "have",
                           "had", "will", "shall", "won", "lost"]

/-- The 2-to-4-digit number regex of _looks_like_generic_fact. -/
def NUM24 : RE := RE.cat [RE.bnd, reD, reD, RE.opt reD, RE.opt reD, RE.bnd]

/-- The anchored proper-noun test re.match of _looks_like_generic_fact
(case-sensitive, full-token because of its anchors). -/
def isCapToken (t : List Char) : Bool :=
  match t with
  | [] => false
  | c :: rest => isUpperAZ c && !rest.isEmpty && rest.all isAsciiAlpha

/-- detection._looks_like_generic_fact. -/
def looksLikeGenericFact (text : List Char) : Bool :=
  let t := pyStrip text
  if t.getLast? = some '?' then false
  else if matchesAny NON_CLAIM_PATTERNS (pyLower t) then false
  else if !reSearch AUX_VERB (pyLower t) then false
  else
    let tokens := pySplit t
    if tokens.length < 5 then false
    else
      let hasNumber := reSearch NUM24 t
      let capTokens := tokens.filter isCapToken
      (!capTokens.isEmpty) || hasNumber

/-- detection.is_claim (threshold and use_semantic are its keyword
arguments, defaulting to 0.3 and True at the call sites). -/
def isClaim (rawSim : List Char → ℚ) (text : List Char)
    (threshold : ℚ) (useSemantic : Bool) : Bool :=
  if text = [] then false
  else if (pyStrip text).length < MIN_CLAIM_LENGTH then false
  else if isHighPriorityClaim (pyStrip text) then true
  else if threshold ≤ max (ruleBasedClaimScore (pyStrip text))
      (if useSemantic then semanticScore rawSim (pyStrip text) else 0) then
    true
  else looksLikeGenericFact (pyStrip text)

/-- Is the code point of c inside [lo, hi]? -/
def inCodeRange (lo hi : Nat) (c : Char) : Bool :=
  lo ≤ c.toNat && c.toNat ≤ hi

/-- detection.detect_language: script-based mapping behind a minimum
length guard ("if not text or len(text) < 10"). -/
def detectLanguage (t : List Char) : String :=
  if t.isEmpty || t.length < 10 then "en"
  else if t.any (inCodeRange 0x0900 0x097F) then "hi"
  else if t.any (inCodeRange 0x0B80 0x0BFF) then "ta"
  else if t.any (inCodeRange 0x0C00 0x0C7F) then "te"
  else if t.any (inCodeRange 0x0980 0x09FF) then "bn"
  else if t.any (inCodeRange 0x0D00 0x0D7F) then "ml"
  else if t.any (inCodeRange 0x0C80 0x0CFF) then "kn"
  else if t.any (inCodeRange 0x0A80 0x0AFF) then "gu"
  else if t.any (inCodeRange 0x0600 0x06FF) then "ur"
  else "en"

/-! ### crud.py: cluster rows and the worker's selection query -/

/-- A ClaimCluster row (the columns the verified claims touch; audit
columns such as first_seen_at and the relationship attributes are not
read by the modelled operations). -/
structure ClusterRec where
  id : Nat
  canonical_text : List Char
  topic : List Char
  centroid : List ℚ
  message_count : Nat
  status : ClaimStatus
  last_seen_at : ℚ
deriving DecidableEq, Repr

/-- crud.get_unknown_clusters: filter status = UNKNOWN, ORDER BY
message_count DESC, LIMIT. -/
def getUnknownClusters (db : List ClusterRec) (limit : Nat) : List ClusterRec :=
  (sortD (fun c => (c.message_count : ℚ))
    (db.filter (fun c => c.status = ClaimStatus.UNKNOWN))).take limit

/-- The batch one tick of main.verification_worker processes:
get_unknown_clusters(db, limit=5). -/
def workerBatch (db : List ClusterRec) : List ClusterRec :=
  getUnknownClusters db 5

/-- Modelled from the spec: the selection C1 claims the code makes, "the
(at most 5) UNKNOWN clusters with the smallest last-seen timestamps, in
ascending last-seen order". -/
def specWorkerBatch (db : List ClusterRec) : List ClusterRec :=
  (sortD (fun c => -c.last_seen_at)
    (db.filter (fun c => c.status = ClaimStatus.UNKNOWN))).take 5

/-! ### crud.py: verdict rows -/

/-- A Verdict row (audio_path is omitted: no modelled operation reads
it back). -/
structure VerdictRec where
  cluster_id : Nat
  status : ClaimStatus
  short_reply : Option (List Char)
  long_reply : Option (List Char)
  sources : Option (List (List Char))
  evidence_snippets : Option (List (List Char))
  confidence_score : Option ℚ
  verified_at : Option ℚ
deriving DecidableEq, Repr

/-- crud.create_verdict at time now: verified_at is set exactly when the
status is not UNKNOWN. -/
def createVerdict (now : ℚ) (cluster_id : Nat) (status : ClaimStatus)
    (short_reply long_reply : Option (List Char))
    (sources evidence_snippets : Option (List (List Char)))
    (confidence_score : Option ℚ) : VerdictRec :=
  { cluster_id := cluster_id
    status := status
    short_reply := short_reply
    long_reply := long_reply
    sources := sources
    evidence_snippets := evidence_snippets
    confidence_score := confidence_score
    verified_at := if status ≠ ClaimStatus.UNKNOWN then some now else none }

/-- crud.update_verdict at time now; existing is the verdict the query
for the cluster found (None falls back to create_verdict).  Optional
fields only overwrite when not None; verified_at is stamped
unconditionally. -/
def updateVerdict (now : ℚ) (existing : Option VerdictRec) (cluster_id : Nat)
    (status : ClaimStatus) (short_reply long_reply : Option (List Char))
    (sources evidence_snippets : Option (List (List Char)))
    (confidence_score : Option ℚ) : VerdictRec :=
  match existing with
  | none => createVerdict now cluster_id status short_reply long_reply
      sources evidence_snippets confidence_score
  | some v =>
    { v with
      status := status
      short_reply := (short_reply.map some).getD v.short_reply
      long_reply := (long_reply.map some).getD v.long_reply
      sources := (sources.map some).getD v.sources
      evidence_snippets := (evidence_snippets.map some).getD v.evidence_snippets
      confidence_score := (confidence_score.map some).getD v.confidence_score
      verified_at := some now }

/-! ### embedding.py: the FAISS flat inner-product index -/

/-- EmbeddingService.search_nearest over an index of (vector, cluster id)
pairs: exact top-k by inner product (IndexFlatIP), keeping hits with
similarity ≥ threshold. -/
def searchNearest (index : List (List ℚ × Nat)) (q : List ℚ) (k : Nat)
    (threshold : ℚ) : List (Nat × ℚ) :=
  if index = [] then []
  else
    let kk := min k index.length
    ((sortD (fun p => ip q p.1) index).take kk).filterMap
      (fun p => if ip q p.1 ≥ threshold then some (p.2, ip q p.1) else none)

/-- EmbeddingService.get_nearest_cluster: search_nearest with k = 1,
first hit if any. -/
def getNearestCluster (index : List (List ℚ × Nat)) (q : List ℚ)
    (threshold : ℚ) : Option (Nat × ℚ) :=
  (searchNearest index q 1 threshold).head?

/-! ### clustering.py: assignment and merging -/

/-- The shared state assign_cluster reads and writes: the FAISS index,
the cluster table, the id the database would give the next insert, and
the append-only sighting log (provenance columns omitted). -/
structure AssignState where
  index : List (List ℚ × Nat)
  db : List ClusterRec
  nextId : Nat
  sightings : List Nat
  threshold : ℚ
deriving Repr

/-- crud.get_cluster_by_id. -/
def findCluster (db : List ClusterRec) (cid : Nat) : Option ClusterRec :=
  db.find? (fun c => c.id = cid)

/-- ClusteringService._merge_into_cluster followed by its
crud.update_cluster call: centroid becomes (centroid*n + v)/(n+1) when a
centroid exists (v otherwise), the count increments and last-seen is
stamped. -/
def mergeIntoCluster (c : ClusterRec) (v : List ℚ) (now : ℚ) : ClusterRec :=
  let n := c.message_count
  let centroid' := if c.centroid ≠ [] then
      vscale (1 / ((n : ℚ) + 1)) (vadd (vscale (n : ℚ) c.centroid) v)
    else v
  { c with message_count := n + 1, centroid := centroid', last_seen_at := now }

/-- Replace the row with c'.id by c' (the ORM flush of the mutated row). -/
def replaceCluster (db : List ClusterRec) (c' : ClusterRec) : List ClusterRec :=
  db.map (fun c => if c.id = c'.id then c' else c)

/-- The miss branch of assign_cluster: create a cluster with the vector
as centroid and count 1, add the vector to the index, record a sighting,
return (cluster, True). -/
def assignNew (st : AssignState) (canonical : List Char) (emb : List ℚ)
    (topic : List Char) (now : ℚ) : (ClusterRec × Bool) × AssignState :=
  let c : ClusterRec :=
    { id := st.nextId, canonical_text := canonical, topic := topic,
      centroid := emb, message_count := 1, status := ClaimStatus.UNKNOWN,
      last_seen_at := now }
  ((c, true),
   { st with
     db := st.db ++ [c],
     index := st.index ++ [(emb, st.nextId)],
     nextId := st.nextId + 1,
     sightings := st.sightings ++ [st.nextId] })

/-- ClusteringService.assign_cluster: nearest-neighbour lookup at the
service threshold; on a hit whose cluster row exists, merge and return
(cluster, False); otherwise fall through to creating a new cluster
(the topic defaulting via get_claim_topics is taken as an argument). -/
def assignCluster (st : AssignState) (canonical : List Char) (emb : List ℚ)
    (topic : List Char) (now : ℚ) : (ClusterRec × Bool) × AssignState :=
  match getNearestCluster st.index emb st.threshold with
  | some (cid, _) =>
    match findCluster st.db cid with
    | some c =>
      let c' := mergeIntoCluster c emb now
      ((c', false),
       { st with
         db := replaceCluster st.db c',
         sightings := st.sightings ++ [cid] })
    | none => assignNew st canonical emb topic now
  | none => assignNew st canonical emb topic now

/-! ### verification.py: parsing the adjudicator's structured reply

The field regexes of _parse_llm_response have the fixed shapes
LABEL:\s*(\w+), LABEL:\s*([\d.]+) and LABEL:\s*(.+?)(?=\n[A-Z_]+:|$)
with IGNORECASE (and DOTALL for the reply fields); each is implemented
directly with re.search's leftmost-match discipline. -/

/-- Case-insensitive prefix test (the label is given lowercase). -/
def startsWithCI : List Char → List Char → Bool
  | [], _ => true
  | _ :: _, [] => false
  | l :: ls, c :: cs => (pyLowerChar c = l) && startsWithCI ls cs

/-- re.search of LABEL:\s*(CLS+): leftmost position where the label is
followed (after greedy \s*) by at least one CLS character; the captured
group is the maximal CLS run. -/
def extractTokAfter (label : List Char) (cls : Char → Bool) :
    List Char → Option (List Char)
  | [] => none
  | s@(_ :: rest) =>
    if startsWithCI label s then
      let w := ((s.drop label.length).dropWhile isPySpace).takeWhile cls
      if w ≠ [] then some w else extractTokAfter label cls rest
    else extractTokAfter label cls rest

/-- The lookahead (?=\n[A-Z_]+:|$) of the reply-field regexes ($ without
MULTILINE: end of string or before a final newline; under the regexes'
IGNORECASE flag the class [A-Z_] also matches lowercase letters). -/
def replyStop (rest : List Char) : Bool :=
  match rest with
  | [] => true
  | c :: r =>
    if c = '\n' then
      (let caps := r.takeWhile (fun d => isAsciiAlpha d || d = '_')
       (!caps.isEmpty && (r.drop caps.length).head? = some ':') || r.isEmpty)
    else false

/-- The shortest nonempty prefix of s after which replyStop holds (the
non-greedy (.+?) under DOTALL); none when s is empty. -/
def capMinAux (acc : List Char) : List Char → Option (List Char)
  | [] => none
  | c :: rest =>
    if replyStop rest then some (c :: acc).reverse
    else capMinAux (c :: acc) rest

/-- re.search of LABEL:\s*(.+?)(?=\n[A-Z_]+:|$) with DOTALL+IGNORECASE.
When everything after the label is whitespace, the greedy \s* backtracks
one character so the group captures a single whitespace character. -/
def extractReplyAfter (label : List Char) : List Char → Option (List Char)
  | [] => none
  | s@(_ :: rest) =>
    if startsWithCI label s then
      let afterLabel := s.drop label.length
      let afterWS := afterLabel.dropWhile isPySpace
      match capMinAux [] afterWS with
      | some g => some g
      | none =>
        match afterLabel.getLast? with
        | some c => some [c]
        | none => extractReplyAfter label rest
    else extractReplyAfter label rest

/-- Decimal value of a digit string. -/
def digitsToNat (l : List Char) : Nat :=
  l.foldl (fun n c => n * 10 + (c.toNat - 48)) 0

/-- Value of Python float() on a [0-9.]+ token, None when it raises
ValueError (more than one dot, or no digit). -/
def pyFloatQ (s : List Char) : Option ℚ :=
  if (s.filter (fun c => c = '.')).length ≤ 1 && s.any isDigitChar then
    let ipart := s.takeWhile (fun c => c ≠ '.')
    let fpart := (s.dropWhile (fun c => c ≠ '.')).drop 1
    some ((digitsToNat ipart : ℚ) +
          (digitsToNat fpart : ℚ) / (10 : ℚ) ^ fpart.length)
  else none

/-- The status_mapping dict (applied to the captured word uppercased;
unknown words fall back to UNKNOWN via dict.get's default). -/
def statusMapping (w : List Char) : ClaimStatus :=
  if w = ("TRUE".toList) then ClaimStatus.TRUE
  else if w = ("FALSE".toList) then ClaimStatus.FALSE
  else if w = ("MISLEADING".toList) then ClaimStatus.MISLEADING
  else if w = ("UNKNOWN".toList) then ClaimStatus.UNKNOWN
  else if w = ("UNVERIFIABLE".toList) then ClaimStatus.UNVERIFIABLE
  else if w = ("PARTIALLY_TRUE".toList) then ClaimStatus.PARTIALLY_TRUE
  else ClaimStatus.UNKNOWN

/-- VerificationService.verify_claim's result record. -/
structure VerificationResult where
  status : ClaimStatus
  confidence_score : ℚ
  short_reply : List Char
  long_reply : List Char
  sources : List (List Char)
  evidence_snippets : List (List Char)
deriving DecidableEq, Repr

/-- The defaults _parse_llm_response starts from. -/
def defaultShortReply : List Char :=
  ("We could not verify this claim. Please check official sources.".toList)

/-- The default long reply of _parse_llm_response. -/
def defaultLongReply : List Char :=
  ("This claim requires further verification.".toList)

/-- VerificationService._parse_llm_response. -/
def parseLLMResponse (response : List Char)
    (sources evidence_snippets : List (List Char)) : VerificationResult :=
  if response = [] then
    { status := ClaimStatus.UNKNOWN, confidence_score := 1 / 2,
      short_reply := defaultShortReply, long_reply := defaultLongReply,
      sources := sources, evidence_snippets := evidence_snippets }
  else
    let status := match extractTokAfter ("status:".toList) isWordChar response with
      | some w => statusMapping (w.map pyUpperChar)
      | none => ClaimStatus.UNKNOWN
    let confidence := match extractTokAfter ("confidence:".toList)
        (fun c => isDigitChar c || c = '.') response with
      | some tok =>
        match pyFloatQ tok with
        | some x => max 0 (min 1 x)
        | none => 1 / 2
      | none => 1 / 2
    let short := match extractReplyAfter ("short_reply:".toList) response with
      | some g =>
        let g' := pyStrip g
        if g'.length > 200 then g'.take 197 ++ ("...".toList) else g'
      | none => defaultShortReply
    let long := match extractReplyAfter ("long_reply:".toList) response with
      | some g => pyStrip g
      | none => defaultLongReply
    { status := status, confidence_score := confidence,
      short_reply := short, long_reply := long,
      sources := sources, evidence_snippets := evidence_snippets }

/-! ### llm_client.py: evidence-coverage grading -/

/-- The claim tokens of _assess_evidence_coverage: word tokens of the
lowercased claim that are longer than 3 characters. -/
def claimTokens (claim_text : List Char) : List (List Char) :=
  (wordRuns (pyLower claim_text)).filter (fun t => t.length > 3)

/-- " ".join(evidence_snippets).lower(). -/
def joinedEvidence (evidence : List (List Char)) : List Char :=
  pyLower (List.intercalate [' '] evidence)

/-- Python's substring containment "needle in hay". -/
def isSubstring (needle : List Char) : List Char → Bool
  | [] => needle.isEmpty
  | c :: rest => needle.isPrefixOf (c :: rest) || isSubstring needle rest

/-- The hit count of _assess_evidence_coverage: Python's set
comprehension counts distinct tokens occurring as substrings of the
joined evidence. -/
def hitCount (claim_text : List Char) (evidence : List (List Char)) : Nat :=
  (((claimTokens claim_text).dedup).filter
    (fun t => isSubstring t (joinedEvidence evidence))).length

/-- The ratio of _assess_evidence_coverage: distinct hits over the
total number of token occurrences (guarded by max 1). -/
def coverageRatio (claim_text : List Char) (evidence : List (List Char)) : ℚ :=
  (hitCount claim_text evidence : ℚ) /
    (max 1 (claimTokens claim_text).length : ℚ)

/-- llm_client._assess_evidence_coverage. -/
def assessEvidenceCoverage (claim_text : List Char)
    (evidence : List (List Char)) : Coverage :=
  if evidence = [] then Coverage.NONE
  else if claimTokens claim_text = [] then Coverage.LOW
  else
    let ratio := coverageRatio claim_text evidence
    if ratio = 0 then Coverage.NONE
    else if ratio < 1 / 5 then Coverage.LOW
    else if ratio < 1 / 2 then Coverage.MEDIUM
    else Coverage.HIGH

/-- Modelled from the spec: the mapping C9 claims, reading
|claim_tokens ∩ tokens_in_joined_snippets| / |claim_tokens| as the
set-intersection ratio its notation denotes (distinct tokens in both
numerator and denominator). -/
def specCoverageRatio (claim_text : List Char)
    (evidence : List (List Char)) : ℚ :=
  ((((claimTokens claim_text).dedup).filter
      (fun t => isSubstring t (joinedEvidence evidence))).length : ℚ) /
    (((claimTokens claim_text).dedup).length : ℚ)

/-- Modelled from the spec: coverage as C9 states it. -/
def specCoverage (claim_text : List Char)
    (evidence : List (List Char)) : Coverage :=
  if evidence = [] then Coverage.NONE
  else
    let ratio := specCoverageRatio claim_text evidence
    if ratio = 0 then Coverage.NONE
    else if ratio < 1 / 5 then Coverage.LOW
    else if ratio < 1 / 2 then Coverage.MEDIUM
    else Coverage.HIGH

/-! ### memory_graph.py: spike detection and recording -/

/-- MemoryGraphService.record_spike on one cluster's spike list: append
the timestamp, keep the last 100. -/
def recordSpike (spikes : List ℚ) (ts : ℚ) : List ℚ :=
  let h := spikes ++ [ts]
  if h.length > 100 then h.drop (h.length - 100) else h

/-- crud.get_claim_seen_history: the most recent limit sightings,
newest first. -/
def getClaimSeenHistory (sightings : List ℚ) (limit : Nat) : List ℚ :=
  (sortD id sightings).take limit

/-- Minimum of a sighting list (min() of the nonempty history). -/
def histMin (h : List ℚ) : ℚ :=
  match h with
  | [] => 0
  | x :: xs => xs.foldl min x

/-- The spike inequality of detect_spike over an already retrieved
history: recent > avg_per_window * k. -/
def spikeCondition (history : List ℚ) (now windowHours k : ℚ) : Bool :=
  let windowStart := now - windowHours * 3600
  let recent := (history.filter (fun h => windowStart ≤ h)).length
  let totalHours := max 1 ((now - histMin history) / 3600)
  let windows := max 1 (totalHours / windowHours)
  let avgPerWindow := (history.length : ℚ) / windows
  (recent : ℚ) > avgPerWindow * k

/-- MemoryGraphService.detect_spike: retrieve up to 500 sightings,
refuse to judge fewer than 10, otherwise apply the spike inequality and
record the spike timestamp on success.  Returns (is_spike, the
cluster's updated spike history). -/
def detectSpike (sightings : List ℚ) (now : ℚ) (windowHours k : ℚ)
    (spikes : List ℚ) : Bool × List ℚ :=
  let history := getClaimSeenHistory sightings 500
  if history.length < 10 then (false, spikes)
  else if spikeCondition history now windowHours k then
    (true, recordSpike spikes now)
  else (false, spikes)

/-- Modelled from the spec: C8's spike predicate, "recent >
(|S| / max(1, span(S)/W)) * k" with span(S) the extent of the sighting
list itself. -/
def specDetectSpike (S : List ℚ) (now windowHours k : ℚ) : Bool :=
  let W := windowHours * 3600
  let recent := (S.filter (fun s => now - W ≤ s)).length
  let span := (match S with
    | [] => 0
    | x :: xs => xs.foldl max x) - histMin S
  let avgPerWindow := (S.length : ℚ) / max 1 (span / W)
  (recent : ℚ) > avgPerWindow * k

/-! ### Bridging lemmas for lowercasing and stripping -/

theorem toNat_ofNat_valid (n : Nat) (h : n < 0xd800) :
    (Char.ofNat n).toNat = n := by
  unfold Char.ofNat
  split
  · unfold Char.ofNatAux Char.toNat
    simp [UInt32.ofNat', UInt32.toNat]
  · rename_i hv
    exfalso
    apply hv
    show n < 0xd800 ∨ 0xdfff < n ∧ n < 0x110000
    omega

/-- Lowercasing never makes or unmakes whitespace. -/
theorem isPySpace_pyLowerChar (c : Char) :
    isPySpace (pyLowerChar c) = isPySpace c := by
  unfold pyLowerChar
  by_cases h : isUpperAZ c = true
  · rw [if_pos h]
    unfold isUpperAZ at h
    rw [Bool.and_eq_true, decide_eq_true_eq, decide_eq_true_eq] at h
    have hof : (Char.ofNat (c.toNat + 32)).toNat = c.toNat + 32 :=
      toNat_ofNat_valid _ (by omega)
    have h1 : isPySpace (Char.ofNat (c.toNat + 32)) = false := by
      simp only [isPySpace, hof, Bool.or_eq_false_iff, decide_eq_false_iff_not]
      omega
    have h2 : isPySpace c = false := by
      simp only [isPySpace, Bool.or_eq_false_iff, decide_eq_false_iff_not]
      omega
    rw [h1, h2]
  · rw [if_neg h]

/-- Stripping after lowercasing removes as much as stripping alone. -/
theorem pyStrip_pyLower_length (t : List Char) :
    (pyStrip (pyLower t)).length = (pyStrip t).length := by
  unfold pyStrip pyLower
  have hcomp : (isPySpace ∘ pyLowerChar) = isPySpace :=
    funext isPySpace_pyLowerChar
  rw [List.dropWhile_map, hcomp, ← List.map_reverse, List.dropWhile_map,
    hcomp]
  simp

theorem pyStrip_length_le (s : List Char) :
    (pyStrip s).length ≤ s.length := by
  unfold pyStrip
  have h1 := (List.dropWhile_sublist (l := s) isPySpace).length_le
  have h2 := (List.dropWhile_sublist
    (l := (s.dropWhile isPySpace).reverse) isPySpace).length_le
  simp only [List.length_reverse] at h2 ⊢
  omega

/-! ### clustering.py: repeated merging (for the mean invariant) -/

/-- Running vector total: an accumulator plus a batch of embeddings. -/
def vsumFrom (S : List ℚ) (vs : List (List ℚ)) : List ℚ := vs.foldl vadd S

/-- A run of assignment hits against one cluster: each arriving
embedding goes through _merge_into_cluster. -/
def applyMerges (c : ClusterRec) (vs : List (List ℚ)) (now : ℚ) : ClusterRec :=
  vs.foldl (fun acc v => mergeIntoCluster acc v now) c

/-! ### The claims -/

/-- C10: for every input shorter than 10 characters (the empty string
included) detect_language returns "en", whatever scripts the text uses;
at length 10 or more the function proceeds to the script checks. -/
theorem C10_short_text_language (t : List Char) (h : t.length < 10) :
    detectLanguage t = "en" := by
  unfold detectLanguage
  rw [if_pos]
  simp [h]

/-- C10 witness: a 3-character all-Devanagari text still maps to "en". -/
theorem C10_short_text_language_witness :
    ([Char.ofNat 0x905, Char.ofNat 0x906, Char.ofNat 0x907] : List Char).length < 10 ∧
    (∀ c ∈ ([Char.ofNat 0x905, Char.ofNat 0x906, Char.ofNat 0x907] : List Char),
      inCodeRange 0x900 0x97F c = true) ∧
    detectLanguage [Char.ofNat 0x905, Char.ofNat 0x906, Char.ofNat 0x907] = "en" :=
  ⟨by decide, by decide, C10_short_text_language _ (by decide)⟩

/-- C4 counterexample: update_verdict stamps verified_at even when the
new status is UNKNOWN, so a verdict can have status UNKNOWN and a
non-null verified-at, refuting the claimed "null iff UNKNOWN". -/
theorem C4_counterexample :
    (updateVerdict 5
        (some (createVerdict 0 1 ClaimStatus.UNKNOWN none none none none none))
        1 ClaimStatus.UNKNOWN none none none none none).status =
      ClaimStatus.UNKNOWN ∧
    (updateVerdict 5
        (some (createVerdict 0 1 ClaimStatus.UNKNOWN none none none none none))
        1 ClaimStatus.UNKNOWN none none none none none).verified_at = some 5 := by
  exact ⟨rfl, rfl⟩

/-- C4 (amended): verdicts produced by create_verdict (initial
registration) have a null verified-at exactly when their status is
UNKNOWN, and update_verdict (worker loop, synchronous verification,
re-verification) stamps a non-null verified-at unconditionally — also
when the new status is UNKNOWN; its create fallback keeps the creation
rule. -/
theorem C4_verified_at_rule (now : ℚ) (cid : Nat) (st : ClaimStatus)
    (sr lr : Option (List Char)) (so ev : Option (List (List Char)))
    (cf : Option ℚ) (v : VerdictRec) :
    ((createVerdict now cid st sr lr so ev cf).verified_at = none ↔
      st = ClaimStatus.UNKNOWN) ∧
    (updateVerdict now (some v) cid st sr lr so ev cf).verified_at = some now ∧
    ((updateVerdict now none cid st sr lr so ev cf).verified_at = none ↔
      st = ClaimStatus.UNKNOWN) := by
  refine ⟨?_, rfl, ?_⟩ <;>
  · show (if st ≠ ClaimStatus.UNKNOWN then some now else none) = none ↔ _
    by_cases h : st = ClaimStatus.UNKNOWN <;> simp [h]

/-- C2 counterexample: on the empty (unparseable) response the parser's
confidence is 0.5, not the 0.3 the claim states. -/
theorem C2_counterexample :
    (parseLLMResponse [] [] []).status = ClaimStatus.UNKNOWN ∧
    (parseLLMResponse [] [] []).confidence_score = 1 / 2 ∧
    (parseLLMResponse [] [] []).confidence_score ≠ 3 / 10 := by
  refine ⟨rfl, rfl, ?_⟩
  show (1 : ℚ) / 2 ≠ 3 / 10
  norm_num

/-- C2 (amended): for every adjudicator response from which no STATUS /
CONFIDENCE / SHORT_REPLY / LONG_REPLY field can be extracted (the empty
response included), the parser returns status UNKNOWN, confidence 0.5
and the neutral default replies, passing sources and snippets through. -/
theorem C2_unparseable_defaults (response : List Char)
    (sources snippets : List (List Char))
    (h1 : extractTokAfter ("status:".toList) isWordChar response = none)
    (h2 : extractTokAfter ("confidence:".toList)
      (fun c => isDigitChar c || c = '.') response = none)
    (h3 : extractReplyAfter ("short_reply:".toList) response = none)
    (h4 : extractReplyAfter ("long_reply:".toList) response = none) :
    parseLLMResponse response sources snippets =
      { status := ClaimStatus.UNKNOWN, confidence_score := 1 / 2,
        short_reply := defaultShortReply, long_reply := defaultLongReply,
        sources := sources, evidence_snippets := snippets } := by
  by_cases hr : response = []
  · subst hr; rfl
  · unfold parseLLMResponse
    rw [if_neg hr, h1, h2, h3, h4]

/-- C2 witness: a plain "hello" response has no recognizable field and
gets the default UNKNOWN / 0.5 verdict. -/
theorem C2_unparseable_defaults_witness :
    parseLLMResponse ("hello".toList) [] [] =
      { status := ClaimStatus.UNKNOWN, confidence_score := 1 / 2,
        short_reply := defaultShortReply, long_reply := defaultLongReply,
        sources := [], evidence_snippets := [] } :=
  C2_unparseable_defaults ("hello".toList) [] []
    (by decide) (by decide) (by decide) (by decide)

/-- The claim text of the C9 inputs. -/
def c9Text : List Char := ("water water water water kills".toList)

/-- The evidence list of the C9 inputs. -/
def c9Evidence : List (List Char) := [("water everywhere".toList)]

/-- C9 counterexample: the code divides the number of DISTINCT hit
tokens by the number of token OCCURRENCES.  On a claim repeating one
token ("water" four times plus "kills"), with evidence containing
"water", the claimed ratio |tokens ∩ snippet tokens|/|tokens| is 1/2 —
HIGH — but the code computes 1/5 and returns MEDIUM. -/
theorem C9_counterexample :
    assessEvidenceCoverage c9Text c9Evidence = Coverage.MEDIUM ∧
    specCoverage c9Text c9Evidence = Coverage.HIGH ∧
    coverageRatio c9Text c9Evidence = 1 / 5 := by
  have hhc : hitCount c9Text c9Evidence = 1 := by decide
  have hct : (claimTokens c9Text).length = 5 := by decide
  have hnum : (((claimTokens c9Text).dedup).filter
      (fun t => isSubstring t (joinedEvidence c9Evidence))).length = 1 := by decide
  have hdl : ((claimTokens c9Text).dedup).length = 2 := by decide
  have hr : coverageRatio c9Text c9Evidence = 1 / 5 := by
    unfold coverageRatio
    rw [hhc, hct]
    norm_num
  have hsr : specCoverageRatio c9Text c9Evidence = 1 / 2 := by
    unfold specCoverageRatio
    rw [hnum, hdl]
    norm_num
  refine ⟨?_, ?_, hr⟩
  · unfold assessEvidenceCoverage
    rw [if_neg (by decide), if_neg (by decide)]
    simp only [hr]
    norm_num
  · unfold specCoverage
    rw [if_neg (by decide)]
    simp only [hsr]
    norm_num

/-- C9 (amended): the coverage of (claim, evidence) uses the lowercased
word tokens of the claim longer than 3 characters and the ratio
(distinct tokens occurring in the joined lowercased snippets) divided by
(total number of token occurrences).  Empty evidence gives NONE; a claim
with no qualifying token gives LOW; otherwise ratio 0 gives NONE,
(0, 0.2) LOW, [0.2, 0.5) MEDIUM and [0.5, ∞) HIGH. -/
theorem C9_coverage_map (c : List Char) (e : List (List Char)) :
    (e = [] → assessEvidenceCoverage c e = Coverage.NONE) ∧
    (e ≠ [] → claimTokens c = [] →
      assessEvidenceCoverage c e = Coverage.LOW) ∧
    (e ≠ [] → claimTokens c ≠ [] →
      ((assessEvidenceCoverage c e = Coverage.NONE ↔ coverageRatio c e = 0) ∧
       (assessEvidenceCoverage c e = Coverage.LOW ↔
         0 < coverageRatio c e ∧ coverageRatio c e < 1 / 5) ∧
       (assessEvidenceCoverage c e = Coverage.MEDIUM ↔
         1 / 5 ≤ coverageRatio c e ∧ coverageRatio c e < 1 / 2) ∧
       (assessEvidenceCoverage c e = Coverage.HIGH ↔
         1 / 2 ≤ coverageRatio c e))) := by
  have hnn : 0 ≤ coverageRatio c e := by
    unfold coverageRatio
    apply div_nonneg
    · exact Nat.cast_nonneg _
    · positivity
  refine ⟨fun he => by simp [assessEvidenceCoverage, he],
          fun he ht => by simp [assessEvidenceCoverage, he, ht], ?_⟩
  intro he ht
  unfold assessEvidenceCoverage
  rw [if_neg he, if_neg ht]
  set r := coverageRatio c e with hr
  by_cases h0 : r = 0
  · rw [if_pos h0]
    refine ⟨iff_of_true rfl h0, ?_, ?_, ?_⟩
    · constructor
      · intro hx; exact absurd hx (by simp)
      · intro hx; rw [h0] at hx; exact absurd hx.1 (lt_irrefl 0)
    · constructor
      · intro hx; exact absurd hx (by simp)
      · intro hx; rw [h0] at hx; exact absurd hx.1 (by norm_num)
    · constructor
      · intro hx; exact absurd hx (by simp)
      · intro hx; rw [h0] at hx; exact absurd hx (by norm_num)
  · rw [if_neg h0]
    have hpos : 0 < r := lt_of_le_of_ne hnn (fun hh => h0 hh.symm)
    by_cases hl : r < 1 / 5
    · rw [if_pos hl]
      refine ⟨?_, iff_of_true rfl ⟨hpos, hl⟩, ?_, ?_⟩
      · constructor
        · intro hx; exact absurd hx (by simp)
        · intro hx; exact absurd hx h0
      · constructor
        · intro hx; exact absurd hx (by simp)
        · intro hx; exact absurd (lt_of_le_of_lt hx.1 hl) (lt_irrefl _)
      · constructor
        · intro hx; exact absurd hx (by simp)
        · intro hx; exact absurd (lt_of_le_of_lt hx hl) (by norm_num)
    · rw [if_neg hl]
      push_neg at hl
      by_cases hm : r < 1 / 2
      · rw [if_pos hm]
        refine ⟨?_, ?_, iff_of_true rfl ⟨hl, hm⟩, ?_⟩
        · constructor
          · intro hx; exact absurd hx (by simp)
          · intro hx; exact absurd hx h0
        · constructor
          · intro hx; exact absurd hx (by simp)
          · intro hx; exact absurd hx.2 (not_lt.mpr hl)
        · constructor
          · intro hx; exact absurd hx (by simp)
          · intro hx; exact absurd (lt_of_le_of_lt hx hm) (by norm_num)
      · rw [if_neg hm]
        push_neg at hm
        refine ⟨?_, ?_, ?_, iff_of_true rfl hm⟩
        · constructor
          · intro hx; exact absurd hx (by simp)
          · intro hx; exact absurd hx h0
        · constructor
          · intro hx; exact absurd hx (by simp)
          · intro hx
            exact absurd hx.2 (not_lt.mpr (le_trans (by norm_num) hm))
        · constructor
          · intro hx; exact absurd hx (by simp)
          · intro hx; exact absurd hx.2 (not_lt.mpr hm)

/-- The claim text of the C9 witness. -/
def c9wText : List Char := ("drinking warm water daily".toList)

/-- The evidence list of the C9 witness. -/
def c9wEvidence : List (List Char) := [("warm water kills viruses fast".toList)]

/-- C9 witness: nonempty evidence and a tokenizable claim instantiate
the amended mapping. -/
theorem C9_coverage_map_witness :
    c9wEvidence ≠ [] ∧ claimTokens c9wText ≠ [] ∧
    ((assessEvidenceCoverage c9wText c9wEvidence = Coverage.NONE ↔
        coverageRatio c9wText c9wEvidence = 0) ∧
     (assessEvidenceCoverage c9wText c9wEvidence = Coverage.LOW ↔
        0 < coverageRatio c9wText c9wEvidence ∧
        coverageRatio c9wText c9wEvidence < 1 / 5) ∧
     (assessEvidenceCoverage c9wText c9wEvidence = Coverage.MEDIUM ↔
        1 / 5 ≤ coverageRatio c9wText c9wEvidence ∧
        coverageRatio c9wText c9wEvidence < 1 / 2) ∧
     (assessEvidenceCoverage c9wText c9wEvidence = Coverage.HIGH ↔
        1 / 2 ≤ coverageRatio c9wText c9wEvidence)) :=
  ⟨by decide, by decide,
   (C9_coverage_map c9wText c9wEvidence).2.2 (by decide) (by decide)⟩

/-- A sample cluster row used by concrete assignment scenarios. -/
def sampleCluster : ClusterRec :=
  { id := 1, canonical_text := ("warm water kills coronavirus".toList),
    topic := ("health".toList), centroid := [1], message_count := 3,
    status := ClaimStatus.UNKNOWN, last_seen_at := 50 }

/-- A sample assignment state whose index holds sampleCluster's vector. -/
def sampleState : AssignState :=
  { index := [([1], 1)], db := [sampleCluster], nextId := 9,
    sightings := [], threshold := 3 / 4 }

/-- C3 counterexample: on a hit (similarity 1 ≥ 0.75 for the identical
vector) assign_cluster merges but returns the boolean False — the flag
is is-new, not merged, so "true exactly when merged" fails. -/
theorem C3_counterexample :
    getNearestCluster sampleState.index [1] sampleState.threshold =
      some (1, 1) ∧
    (assignCluster sampleState ("t".toList) [1] ("health".toList) 60).1.2 =
      false ∧
    (assignCluster sampleState ("t".toList) [1] ("health".toList)
      60).1.1.message_count = 4 := by
  have h1 : getNearestCluster sampleState.index [1] sampleState.threshold =
      some (1, 1) := by
    unfold getNearestCluster searchNearest sampleState
    simp only [ip, sortD, insertD]
    norm_num
  refine ⟨h1, ?_, ?_⟩ <;>
  · unfold assignCluster
    rw [h1]
    rfl

/-- C3 (amended): the boolean component of assign_cluster's result is
the is-new flag: it is false exactly when the index query found a
cluster at or above the threshold whose row exists (the merge case), and
true exactly when a new cluster was created — the negation of the
boolean the claim describes. -/
theorem C3_assign_flag (st : AssignState) (canonical : List Char)
    (emb : List ℚ) (topic : List Char) (now : ℚ) :
    (assignCluster st canonical emb topic now).1.2 = false ↔
      ∃ cid s, getNearestCluster st.index emb st.threshold = some (cid, s) ∧
        (findCluster st.db cid).isSome := by
  cases hn : getNearestCluster st.index emb st.threshold with
  | none =>
    simp only [assignCluster, hn, assignNew]
    constructor
    · intro hx; exact absurd hx (by simp)
    · rintro ⟨cid, s, hc, -⟩; exact absurd hc (by simp)
  | some pr =>
    obtain ⟨cid, s⟩ := pr
    cases hc : findCluster st.db cid with
    | none =>
      simp only [assignCluster, hn, hc, assignNew]
      constructor
      · intro hx; exact absurd hx (by simp)
      · rintro ⟨cid', s', hc', hs'⟩
        rw [Option.some.injEq, Prod.mk.injEq] at hc'
        rw [← hc'.1, hc] at hs'
        exact absurd hs' (by simp)
    | some c =>
      simp only [assignCluster, hn, hc]
      constructor
      · intro _
        exact ⟨cid, s, rfl, by rw [hc]; rfl⟩
      · intro _; trivial

/-- C3 witness: the amended flag equivalence at the sample state. -/
theorem C3_assign_flag_witness :
    (assignCluster sampleState ("t".toList) [1] ("health".toList)
      60).1.2 = false ↔
    ∃ cid s, getNearestCluster sampleState.index [1]
        sampleState.threshold = some (cid, s) ∧
      (findCluster sampleState.db cid).isSome :=
  C3_assign_flag sampleState ("t".toList) [1] ("health".toList) 60

/-- C4 witness: the amended verified-at rule at concrete arguments. -/
theorem C4_verified_at_rule_witness :
    ((createVerdict 7 1 ClaimStatus.FALSE none none none none
        none).verified_at = none ↔ ClaimStatus.FALSE = ClaimStatus.UNKNOWN) ∧
    (updateVerdict 7
      (some (createVerdict 0 1 ClaimStatus.UNKNOWN none none none none none))
      1 ClaimStatus.FALSE none none none none none).verified_at = some 7 ∧
    ((updateVerdict 7 none 1 ClaimStatus.FALSE none none none none
        none).verified_at = none ↔ ClaimStatus.FALSE = ClaimStatus.UNKNOWN) :=
  C4_verified_at_rule 7 1 ClaimStatus.FALSE none none none none none
    (createVerdict 0 1 ClaimStatus.UNKNOWN none none none none none)

/-- C6: similarity exactly at the threshold is a hit, not a miss: any
top-k candidate whose inner product with the query is exactly τ passes
search_nearest's ≥-filter and is returned, and an assignment whose
nearest hit sits exactly at the service threshold takes the merge
branch. -/
theorem C6_exact_threshold_hit (index : List (List ℚ × Nat)) (q : List ℚ)
    (k : Nat) (τ : ℚ) (p : List ℚ × Nat)
    (hp : p ∈ (sortD (fun r => ip q r.1) index).take (min k index.length))
    (hτ : ip q p.1 = τ)
    (st : AssignState) (canonical : List Char) (emb : List ℚ)
    (topic : List Char) (now : ℚ) (cid : Nat) (c : ClusterRec)
    (hn : getNearestCluster st.index emb st.threshold =
      some (cid, st.threshold))
    (hc : findCluster st.db cid = some c) :
    (p.2, τ) ∈ searchNearest index q k τ ∧
    (assignCluster st canonical emb topic now).1 =
      (mergeIntoCluster c emb now, false) := by
  constructor
  · have hne : index ≠ [] := by
      intro hi
      rw [hi] at hp
      simp [sortD] at hp
    unfold searchNearest
    rw [if_neg hne]
    apply List.mem_filterMap.mpr
    refine ⟨p, hp, ?_⟩
    rw [if_pos (le_of_eq hτ.symm), hτ]
  · simp only [assignCluster, hn, hc]

/-- An assignment state whose only index vector sits at inner product
exactly 3/4 from the query [1]. -/
def sampleState75 : AssignState :=
  { index := [([3 / 4], 1)], db := [sampleCluster], nextId := 9,
    sightings := [], threshold := 3 / 4 }

/-- C6 witness: an index vector at inner product exactly 3/4 with the
query is returned, and the matching assignment merges. -/
theorem C6_exact_threshold_hit_witness :
    (([3 / 4], 1) : List ℚ × Nat) ∈
      (sortD (fun r => ip [1] r.1) [([3 / 4], 1)]).take
        (min 1 ([(([3 / 4] : List ℚ), 1)] : List (List ℚ × Nat)).length) ∧
    ip [(1 : ℚ)] [3 / 4] = 3 / 4 ∧
    getNearestCluster sampleState75.index [1]
      sampleState75.threshold = some (1, 3 / 4) ∧
    findCluster sampleState75.db 1 = some sampleCluster ∧
    ((1, (3 : ℚ) / 4) ∈ searchNearest [([3 / 4], 1)] [1] 1 (3 / 4) ∧
     (assignCluster sampleState75 ("t".toList) [1]
        ("health".toList) 60).1 =
       (mergeIntoCluster sampleCluster [1] 60, false)) := by
  have h1 : (([3 / 4], 1) : List ℚ × Nat) ∈
      (sortD (fun r => ip [1] r.1) [([3 / 4], 1)]).take
        (min 1 ([(([3 / 4] : List ℚ), 1)] : List (List ℚ × Nat)).length) := by
    simp [sortD, insertD]
  have h2 : ip [(1 : ℚ)] [3 / 4] = 3 / 4 := by
    simp [ip]
  have h3 : getNearestCluster sampleState75.index [1]
      sampleState75.threshold = some (1, 3 / 4) := by
    unfold getNearestCluster searchNearest sampleState75
    simp only [ip, sortD, insertD]
    norm_num
  have h4 : findCluster sampleState75.db 1 = some sampleCluster := rfl
  exact ⟨h1, h2, h3, h4,
    C6_exact_threshold_hit [([3 / 4], 1)] [1] 1 (3 / 4) ([3 / 4], 1) h1 h2
      sampleState75 ("t".toList) [1] ("health".toList) 60 1
      sampleCluster h3 h4⟩

/-- Folding merges into a cluster whose centroid is the scaled running
total keeps the centroid equal to the scaled running total. -/
theorem applyMerges_mean (now : ℚ) (d : Nat) (vs : List (List ℚ)) :
    ∀ (c : ClusterRec) (S : List ℚ),
      S.length = d → 0 < d →
      c.centroid = vscale (1 / (c.message_count : ℚ)) S →
      1 ≤ c.message_count → (∀ v ∈ vs, v.length = d) →
      (applyMerges c vs now).message_count = c.message_count + vs.length ∧
      (applyMerges c vs now).centroid =
        vscale (1 / ((c.message_count : ℚ) + (vs.length : ℚ)))
          (vsumFrom S vs) := by
  induction vs with
  | nil =>
    intro c S hS hd hc hn hv
    simp [applyMerges, vsumFrom, hc]
  | cons v vs ih =>
    intro c S hS hd hc hn hv
    have hne : ((c.message_count : ℚ)) ≠ 0 := by
      have h1 : (1 : ℚ) ≤ (c.message_count : ℚ) := by exact_mod_cast hn
      linarith
    have hSne : c.centroid ≠ [] := by
      rw [hc]
      intro hx
      have hlen := congrArg List.length hx
      rw [vscale_length, hS] at hlen
      simp at hlen
      omega
    have hmc : (mergeIntoCluster c v now).centroid =
        vscale (1 / ((c.message_count : ℚ) + 1)) (vadd S v) := by
      simp only [mergeIntoCluster, if_pos hSne]
      rw [hc, vscale_vscale, mul_one_div_cancel hne, vscale_one]
    have hmn : (mergeIntoCluster c v now).message_count =
        c.message_count + 1 := rfl
    have hvl : (vadd S v).length = d := by
      rw [vadd_length, hS, hv v (List.mem_cons_self v vs)]
      exact min_self d
    have hstep : applyMerges c (v :: vs) now =
        applyMerges (mergeIntoCluster c v now) vs now := rfl
    have hih := ih (mergeIntoCluster c v now) (vadd S v) hvl hd
      (by rw [hmc, hmn]; push_cast; ring_nf)
      (by rw [hmn]; omega)
      (fun w hw => hv w (List.mem_cons_of_mem v hw))
    rw [hstep]
    constructor
    · rw [hih.1, hmn]
      simp [Nat.add_assoc, Nat.add_comm 1 vs.length]
    · rw [hih.2, hmn]
      have harith : (((c.message_count + 1 : ℕ) : ℚ) + (vs.length : ℚ)) =
          ((c.message_count : ℚ) + ((vs.length + 1 : ℕ) : ℚ)) := by
        push_cast
        ring
      rw [harith]
      rfl

/-- C7: a merge into a cluster with centroid c and count n produces
centroid (c*n + v)/(n+1) and count n+1; consequently, starting from a
freshly created cluster (count 1, centroid = first embedding) any run of
merges leaves the centroid exactly — error zero, within any tolerance —
at the arithmetic mean of all member embeddings. -/
theorem C7_centroid_mean (c : ClusterRec) (v : List ℚ) (nowm : ℚ)
    (hcent : c.centroid ≠ [])
    (e : List ℚ) (he : e ≠ []) (vs : List (List ℚ))
    (hvs : ∀ w ∈ vs, w.length = e.length)
    (c₀ : ClusterRec) (h0 : c₀.centroid = e) (hc1 : c₀.message_count = 1)
    (now : ℚ) :
    ((mergeIntoCluster c v nowm).centroid =
       vscale (1 / ((c.message_count : ℚ) + 1))
         (vadd (vscale (c.message_count : ℚ) c.centroid) v) ∧
     (mergeIntoCluster c v nowm).message_count = c.message_count + 1) ∧
    ((applyMerges c₀ vs now).message_count = vs.length + 1 ∧
     (applyMerges c₀ vs now).centroid =
       vscale (1 / ((vs.length : ℚ) + 1)) (vsumFrom e vs)) := by
  constructor
  · exact ⟨by simp only [mergeIntoCluster, if_pos hcent], rfl⟩
  · have hd : 0 < e.length := List.length_pos.mpr he
    have h0' : c₀.centroid = vscale (1 / ((c₀.message_count : ℚ))) e := by
      rw [h0, hc1]
      norm_num [vscale_one]
    have h := applyMerges_mean now e.length vs c₀ e rfl hd h0'
      (by omega) hvs
    refine ⟨by rw [h.1, hc1]; omega, ?_⟩
    rw [h.2, hc1]
    norm_num [add_comm]

/-- The fresh cluster of the C7 witness. -/
def c7Start : ClusterRec :=
  { id := 4, canonical_text := ("the earth is flat".toList),
    topic := ("science".toList), centroid := [1, 0], message_count := 1,
    status := ClaimStatus.UNKNOWN, last_seen_at := 10 }

/-- C7 witness: merging [0,1] and then [1,1] into a cluster created
from [1,0] yields count 3 and centroid (the mean) (2/3, 2/3). -/
theorem C7_centroid_mean_witness :
    sampleCluster.centroid ≠ [] ∧
    ([(1 : ℚ), 0] : List ℚ) ≠ [] ∧
    (∀ w ∈ [[(0 : ℚ), 1], [1, 1]], w.length = ([(1 : ℚ), 0]).length) ∧
    c7Start.centroid = [1, 0] ∧ c7Start.message_count = 1 ∧
    (((mergeIntoCluster sampleCluster [1] 60).centroid =
        vscale (1 / ((sampleCluster.message_count : ℚ) + 1))
          (vadd (vscale (sampleCluster.message_count : ℚ)
            sampleCluster.centroid) [1]) ∧
      (mergeIntoCluster sampleCluster [1] 60).message_count =
        sampleCluster.message_count + 1) ∧
     ((applyMerges c7Start [[0, 1], [1, 1]] 99).message_count =
        ([[(0 : ℚ), 1], [1, 1]] : List (List ℚ)).length + 1 ∧
      (applyMerges c7Start [[0, 1], [1, 1]] 99).centroid =
        vscale (1 / ((([[(0 : ℚ), 1], [1, 1]] :
            List (List ℚ)).length : ℚ) + 1))
          (vsumFrom [1, 0] [[0, 1], [1, 1]]))) := by
  refine ⟨by decide, by decide, by decide, rfl, rfl, ?_⟩
  exact C7_centroid_mean sampleCluster [1] 60 (by decide) [1, 0] (by decide)
    [[0, 1], [1, 1]] (by decide) c7Start rfl rfl 99

/-- An UNKNOWN cluster with a large count seen recently. -/
def c1A : ClusterRec :=
  { id := 1, canonical_text := ("hot water cures covid".toList),
    topic := ("health".toList), centroid := [], message_count := 10,
    status := ClaimStatus.UNKNOWN, last_seen_at := 100 }

/-- An UNKNOWN cluster with a small count seen long ago. -/
def c1B : ClusterRec :=
  { id := 2, canonical_text := ("the earth is flat".toList),
    topic := ("science".toList), centroid := [], message_count := 1,
    status := ClaimStatus.UNKNOWN, last_seen_at := 5 }

/-- C1 counterexample: the worker query orders by message count
descending, not oldest-last-seen first: on a database where the
recently-seen cluster has the larger count the tick processes [A, B]
while the claimed selection is [B, A]. -/
theorem C1_counterexample :
    workerBatch [c1A, c1B] = [c1A, c1B] ∧
    specWorkerBatch [c1A, c1B] = [c1B, c1A] ∧
    workerBatch [c1A, c1B] ≠ specWorkerBatch [c1A, c1B] := by
  have hAB : c1A ≠ c1B := by
    intro h
    have hmc := congrArg ClusterRec.message_count h
    simp [c1A, c1B] at hmc
  have h1 : workerBatch [c1A, c1B] = [c1A, c1B] := by
    unfold workerBatch getUnknownClusters
    norm_num [c1A, c1B, sortD, insertD, List.filter]
  have h2 : specWorkerBatch [c1A, c1B] = [c1B, c1A] := by
    unfold specWorkerBatch
    norm_num [c1A, c1B, sortD, insertD, List.filter]
  refine ⟨h1, h2, ?_⟩
  rw [h1, h2]
  intro h
  have hh := congrArg List.head? h
  simp at hh
  exact hAB hh

/-- C1 (amended): each worker tick takes get_unknown_clusters(db, 5):
at most five clusters, all UNKNOWN, in descending message-count order,
and they dominate — every UNKNOWN cluster left out has a message count
no larger than any selected one.  The oldest-last-seen-first order the
spec describes is not what the query produces. -/
theorem C1_worker_selection (db : List ClusterRec) :
    (∀ c ∈ workerBatch db, c.status = ClaimStatus.UNKNOWN) ∧
    (workerBatch db).length ≤ 5 ∧
    (workerBatch db).Pairwise
      (fun a b => b.message_count ≤ a.message_count) ∧
    (∀ c ∈ workerBatch db, ∀ d ∈ db, d.status = ClaimStatus.UNKNOWN →
      d ∉ workerBatch db → d.message_count ≤ c.message_count) := by
  have hW : workerBatch db =
      (sortD (fun c => (c.message_count : ℚ))
        (db.filter (fun c => c.status = ClaimStatus.UNKNOWN))).take 5 := rfl
  refine ⟨?_, ?_, ?_, ?_⟩
  · intro c hc
    rw [hW] at hc
    have h1 := List.take_subset 5 _ hc
    have h2 := (mem_sortD _ _ c).mp h1
    exact of_decide_eq_true (List.mem_filter.mp h2).2
  · rw [hW]
    exact List.length_take_le 5 _
  · rw [hW]
    have hp : ((sortD (fun c => (c.message_count : ℚ))
        (db.filter (fun c => c.status = ClaimStatus.UNKNOWN))).take
          5).Pairwise
        (fun x y => (y.message_count : ℚ) ≤ (x.message_count : ℚ)) :=
      (sortD_sorted _ _).sublist (List.take_sublist 5 _)
    exact hp.imp (fun hxy => by exact_mod_cast hxy)
  · intro c hc d hd hds hdn
    rw [hW] at hc hdn
    have hdu : d ∈ db.filter (fun c => c.status = ClaimStatus.UNKNOWN) :=
      List.mem_filter.mpr ⟨hd, by simp [hds]⟩
    have hdsort := (mem_sortD (fun c => (c.message_count : ℚ)) _ d).mpr hdu
    have hsplit : d ∈ (sortD (fun c => (c.message_count : ℚ))
        (db.filter (fun c => c.status = ClaimStatus.UNKNOWN))).take 5 ∨
        d ∈ (sortD (fun c => (c.message_count : ℚ))
        (db.filter (fun c => c.status = ClaimStatus.UNKNOWN))).drop 5 := by
      rw [← List.mem_append, List.take_append_drop]
      exact hdsort
    rcases hsplit with h | h
    · exact absurd h hdn
    · exact_mod_cast sortD_take_drop _ _ 5 c d hc h

/-- C1 witness: the amended selection properties at the two-cluster
database of the counterexample. -/
theorem C1_worker_selection_witness :
    (∀ c ∈ workerBatch [c1A, c1B], c.status = ClaimStatus.UNKNOWN) ∧
    (workerBatch [c1A, c1B]).length ≤ 5 ∧
    (workerBatch [c1A, c1B]).Pairwise
      (fun a b => b.message_count ≤ a.message_count) ∧
    (∀ c ∈ workerBatch [c1A, c1B], ∀ d ∈ [c1A, c1B],
      d.status = ClaimStatus.UNKNOWN → d ∉ workerBatch [c1A, c1B] →
      d.message_count ≤ c.message_count) :=
  C1_worker_selection [c1A, c1B]

/-- The code's doubly clamped window count (hours first, then windows)
collapses to the single clamp of the spec formula at the default
24-hour window. -/
theorem windows_collapse (x : ℚ) :
    max 1 (max 1 (x / 3600) / 24) = max 1 (x / (24 * 3600)) := by
  rcases le_or_lt (x / 3600) 1 with h | h
  · rw [max_eq_left h]
    have h2 : (1 : ℚ) / 24 ≤ 1 := by norm_num
    rw [max_eq_left h2]
    have hx : x ≤ 3600 := by
      by_contra hc
      push_neg at hc
      have : (1 : ℚ) < x / 3600 := by
        rw [lt_div_iff₀ (by norm_num : (0 : ℚ) < 3600)]
        linarith
      linarith
    have h3 : x / (24 * 3600) ≤ 1 := by
      rw [div_le_one (by norm_num : (0 : ℚ) < 24 * 3600)]
      linarith
    rw [max_eq_left h3]
  · rw [max_eq_right h.le]
    have hq : x / 3600 / 24 = x / (24 * 3600) := by ring
    rw [hq]

/-- The nine sightings of the C8 counterexample: seven recent (time
999900) and two ten days old (136000), judged at time 1000000. -/
def c8Sightings : List ℚ :=
  [999900, 999900, 999900, 999900, 999900, 999900, 999900, 136000, 136000]

/-- C8 counterexample: with nine sightings, seven of them inside the
last 24-hour window of a ten-day span, the claimed inequality
recent > (|S|/max(1, span/W))·k holds (7 > 2.7003...), yet detect_spike
returns false — and records nothing — because it refuses histories of
fewer than 10 sightings. -/
theorem C8_counterexample :
    specDetectSpike c8Sightings 1000000 24 3 = true ∧
    detectSpike c8Sightings 1000000 24 3 [] = (false, []) := by
  constructor
  · unfold specDetectSpike c8Sightings histMin
    norm_num [List.filter, List.foldl]
  · have h9 : (getClaimSeenHistory c8Sightings 500).length < 10 := by decide
    unfold detectSpike
    simp only [if_pos h9]

/-- C8 (amended): detect_spike judges the up-to-500 most recent
sightings H.  With fewer than 10 of them it returns false and records
nothing; with at least 10 it returns true exactly when
recent > (|H| / max(1, (now − oldest(H))/W)) · k at the default W = 24 h
and k = 3, and it records the spike timestamp (keeping the last 100)
exactly when it returns true. -/
theorem C8_detect_spike (sightings : List ℚ) (now : ℚ) (spikes : List ℚ) :
    ((getClaimSeenHistory sightings 500).length < 10 →
      detectSpike sightings now 24 3 spikes = (false, spikes)) ∧
    (10 ≤ (getClaimSeenHistory sightings 500).length →
      ((detectSpike sightings now 24 3 spikes).1 = true ↔
        ((((getClaimSeenHistory sightings 500).filter
            (fun h => now - 24 * 3600 ≤ h)).length : ℚ) >
          (((getClaimSeenHistory sightings 500).length : ℚ) /
            max 1 ((now - histMin (getClaimSeenHistory sightings 500)) /
              (24 * 3600))) * 3))) ∧
    ((detectSpike sightings now 24 3 spikes).1 = true →
      (detectSpike sightings now 24 3 spikes).2 = recordSpike spikes now) ∧
    ((detectSpike sightings now 24 3 spikes).1 = false →
      (detectSpike sightings now 24 3 spikes).2 = spikes) := by
  have hsc : spikeCondition (getClaimSeenHistory sightings 500) now 24 3 =
      true ↔
      ((((getClaimSeenHistory sightings 500).filter
          (fun h => now - 24 * 3600 ≤ h)).length : ℚ) >
        (((getClaimSeenHistory sightings 500).length : ℚ) /
          max 1 ((now - histMin (getClaimSeenHistory sightings 500)) /
            (24 * 3600))) * 3) := by
    unfold spikeCondition
    rw [decide_eq_true_eq,
      windows_collapse (now - histMin (getClaimSeenHistory sightings 500))]
  by_cases h10 : (getClaimSeenHistory sightings 500).length < 10
  · have hd : detectSpike sightings now 24 3 spikes = (false, spikes) := by
      unfold detectSpike
      simp only [if_pos h10]
    refine ⟨fun _ => hd, fun hge => absurd h10 (not_lt.mpr hge), ?_, ?_⟩
    · intro ht
      rw [hd] at ht
      exact absurd ht (by simp)
    · intro _
      rw [hd]
  · by_cases hb : spikeCondition (getClaimSeenHistory sightings 500)
        now 24 3 = true
    · have hd : detectSpike sightings now 24 3 spikes =
          (true, recordSpike spikes now) := by
        unfold detectSpike
        simp only [if_neg h10, hb, if_true]
      refine ⟨fun hlt => absurd hlt h10, fun _ => ?_, fun _ => ?_, ?_⟩
      · rw [hd]
        exact iff_of_true rfl (hsc.mp hb)
      · rw [hd]
      · intro hf
        rw [hd] at hf
        exact absurd hf (by simp)
    · have hd : detectSpike sightings now 24 3 spikes = (false, spikes) := by
        unfold detectSpike
        simp only [if_neg h10, hb]
        rw [if_neg (by simp [hb])]
      refine ⟨fun hlt => absurd hlt h10, fun _ => ?_, fun ht => ?_, fun _ => by rw [hd]⟩
      · rw [hd]
        refine iff_of_false (by simp) (fun hx => hb (hsc.mpr hx))
      · rw [hd] at ht
        exact absurd ht (by simp)

/-- The ten sightings of the C8 witness: eight recent, two old. -/
def c8wSightings : List ℚ :=
  [999900, 999900, 999900, 999900, 999900, 999900, 999900, 999900,
   136000, 136000]

/-- C8 witness: ten sightings pass the minimum-history guard and the
amended rule applies; its inequality (8 > 3.0004...) makes detect_spike
fire and record the timestamp. -/
theorem C8_detect_spike_witness :
    10 ≤ (getClaimSeenHistory c8wSightings 500).length ∧
    (detectSpike c8wSightings 1000000 24 3 []).1 = true ∧
    (detectSpike c8wSightings 1000000 24 3 []).2 = recordSpike [] 1000000 := by
  have h10 : 10 ≤ (getClaimSeenHistory c8wSightings 500).length := by decide
  have hth := C8_detect_spike c8wSightings 1000000 []
  have hfil : ((getClaimSeenHistory c8wSightings 500).filter
      (fun h => (1000000 : ℚ) - 24 * 3600 ≤ h)).length = 8 := by
    have hpred : (fun h => decide ((1000000 : ℚ) - 24 * 3600 ≤ h)) =
        (fun h => decide ((913600 : ℚ) ≤ h)) := by
      funext h
      rw [decide_eq_decide]
      constructor <;> intro hh <;> linarith
    rw [hpred]
    decide
  have hmin : histMin (getClaimSeenHistory c8wSightings 500) = 136000 := by
    decide
  have hlen : (getClaimSeenHistory c8wSightings 500).length = 10 := by decide
  have htrue : (detectSpike c8wSightings 1000000 24 3 []).1 = true := by
    rw [hth.2.1 h10]
    rw [hfil, hmin, hlen]
    rw [gt_iff_lt, div_mul_eq_mul_div, div_lt_iff₀ (by norm_num)]
    norm_num
  exact ⟨h10, htrue, hth.2.2.1 htrue⟩

/-- A match at the current position makes re.search succeed. -/
theorem reSearchFrom_of_here (re : RE) (prev : Option Char) (s : List Char)
    (h : reMatchHere re prev s = true) : reSearchFrom re prev s = true := by
  cases s with
  | nil => simpa [reSearchFrom] using h
  | cons c rest => simp [reSearchFrom, h]

/-- A stripped text longer than 5000 characters gets rule score 0. -/
theorem ruleBasedClaimScore_long (u : List Char)
    (h : 5000 < (pyStrip u).length) : ruleBasedClaimScore u = 0 := by
  unfold ruleBasedClaimScore MIN_CLAIM_LENGTH MAX_CLAIM_LENGTH
  rw [pyStrip_pyLower_length u]
  rw [if_neg (by omega), if_pos (by omega)]

/-- The clipped semantic score is never negative. -/
theorem semClip_nonneg (r : ℚ) : 0 ≤ semClip r := by
  unfold semClip
  by_cases h : r < 3 / 10
  · rw [if_pos h]
  · rw [if_neg h]
    push_neg at h
    exact le_min (by linarith) (by norm_num)

/-- The >5000-character text of the C5 counterexample: a high-priority
death phrase followed by 5000 filler characters. -/
def c5Text : List Char := ("is dead ".toList) ++ List.replicate 5000 'b'

theorem c5Text_ne : c5Text ≠ [] := by decide

theorem c5Text_len : c5Text.length = 5008 := by
  unfold c5Text
  rw [List.length_append, List.length_replicate]
  decide

theorem c5Text_strip : pyStrip c5Text = c5Text := by
  have hfront : c5Text.dropWhile isPySpace = c5Text := by
    have hc : c5Text = 'i' :: (("s dead ".toList) ++ List.replicate 5000 'b') :=
      rfl
    rw [hc, List.dropWhile_cons, if_neg (by decide)]
  have hrev : c5Text.reverse =
      List.replicate 5000 'b' ++ ("is dead ".toList).reverse := by
    unfold c5Text
    rw [List.reverse_append, List.reverse_replicate]
  have hback : (c5Text.reverse).dropWhile isPySpace = c5Text.reverse := by
    rw [hrev]
    have h5000 : List.replicate 5000 'b' = 'b' :: List.replicate 4999 'b' := rfl
    rw [h5000, List.cons_append, List.dropWhile_cons, if_neg (by decide)]
  unfold pyStrip
  rw [hfront, hback, List.reverse_reverse]

theorem c5Text_lower : pyLower c5Text = c5Text := by
  unfold pyLower c5Text
  rw [List.map_append, List.map_replicate]
  have h1 : ("is dead ".toList).map pyLowerChar = "is dead ".toList := by decide
  have h2 : pyLowerChar 'b' = 'b' := by decide
  rw [h1, h2]

/-- The match of the first death phrase at position 0 of c5Text. -/
theorem c5Text_here : reMatchHere HP1 none c5Text = true := by
  unfold reMatchHere
  have hf : reFuel HP1 c5Text = 1072140 := by
    unfold reFuel
    rw [c5Text_len]
    decide
  rw [hf]
  decide

theorem c5Text_hp : isHighPriorityClaim c5Text = true := by
  unfold isHighPriorityClaim
  rw [if_neg c5Text_ne, c5Text_strip, c5Text_lower, c5Text_len,
    if_neg (by norm_num [MIN_CLAIM_LENGTH])]
  unfold matchesAny
  apply List.any_eq_true.mpr
  refine ⟨HP1, List.mem_cons_self _ _, ?_⟩
  unfold reSearch
  exact reSearchFrom_of_here HP1 none c5Text c5Text_here

/-- C5 counterexample: a text of 5008 characters matching the
high-priority death pattern is classified as a claim, although the claim
says every text longer than 5000 code points is a non-claim. -/
theorem C5_counterexample :
    5000 < (pyStrip c5Text).length ∧
    isClaim (fun _ => 0) c5Text (3 / 10) true = true := by
  have h1 : 5000 < (pyStrip c5Text).length := by
    rw [c5Text_strip, c5Text_len]
    norm_num
  refine ⟨h1, ?_⟩
  unfold isClaim
  rw [if_neg c5Text_ne, c5Text_strip, c5Text_len,
    if_neg (by norm_num [MIN_CLAIM_LENGTH]), if_pos c5Text_hp]

/-- C5 (amended): a text whose stripped form exceeds 5000 characters is
zeroed only in the rule-based score; the high-priority override, the
semantic score and the generic-fact fallback still apply, so is_claim
classifies it as a claim exactly when one of those three fires. -/
theorem C5_long_text (rawSim : List Char → ℚ) (text : List Char)
    (h : 5000 < (pyStrip text).length) :
    ruleBasedClaimScore (pyStrip text) = 0 ∧
    (isClaim rawSim text (3 / 10) true = true ↔
      (isHighPriorityClaim (pyStrip text) = true ∨
       3 / 10 ≤ semanticScore rawSim (pyStrip text) ∨
       looksLikeGenericFact (pyStrip text) = true)) := by
  have hrule : ruleBasedClaimScore (pyStrip text) = 0 := by
    apply ruleBasedClaimScore_long
    rw [pyStrip_idem]
    exact h
  refine ⟨hrule, ?_⟩
  have hne : text ≠ [] := by
    intro hx
    rw [hx] at h
    simp [pyStrip] at h
  unfold isClaim
  rw [if_neg hne]
  rw [if_neg (show ¬((pyStrip text).length < MIN_CLAIM_LENGTH) by
    unfold MIN_CLAIM_LENGTH
    omega)]
  by_cases hhp : isHighPriorityClaim (pyStrip text) = true
  · rw [if_pos hhp]
    simp [hhp]
  · rw [if_neg hhp, hrule, if_pos rfl]
    have hmax : max (0 : ℚ) (semanticScore rawSim (pyStrip text)) =
        semanticScore rawSim (pyStrip text) :=
      max_eq_right (semClip_nonneg _)
    rw [hmax]
    by_cases hsem : (3 : ℚ) / 10 ≤ semanticScore rawSim (pyStrip text)
    · rw [if_pos hsem]
      simp [hsem]
    · rw [if_neg hsem]
      simp [hhp, hsem]

/-- C5 witness: the amended rule instantiated at the 5008-character
counterexample text (semantic oracle constantly 0). -/
theorem C5_long_text_witness :
    5000 < (pyStrip c5Text).length ∧
    (ruleBasedClaimScore (pyStrip c5Text) = 0 ∧
     (isClaim (fun _ => 0) c5Text (3 / 10) true = true ↔
       (isHighPriorityClaim (pyStrip c5Text) = true ∨
        3 / 10 ≤ semanticScore (fun _ => 0) (pyStrip c5Text) ∨
        looksLikeGenericFact (pyStrip c5Text) = true))) :=
  ⟨by rw [c5Text_strip, c5Text_len]; norm_num,
   C5_long_text (fun _ => 0) c5Text
     (by rw [c5Text_strip, c5Text_len]; norm_num)⟩

end WhatsAMyth
